import Mathlib

/-!
Verification development for the DuckBattles ("Chexy Butt Balloons") server
simulation and state-synchronization layer.

The Rust source is shallowly embedded: `f32` coordinates are modelled as
rationals (`ℚ`), `i64` scores as `ℤ`, Bevy entity ids as `ℕ`, and each system
becomes a pure function from its queried state to its updated state plus the
messages and events it emits.  Definitions follow the source files
`src/demo/physics.rs`, `src/demo/movement.rs`, `src/screens/gameplay.rs`,
`src/demo/client.rs` and `src/bin/server.rs`; names are kept where Lean
allows.
-/

namespace Game

/-- Two-dimensional vector over ℚ (models glam `Vec2` with `f32` fields). -/
structure Vec2 where
  x : ℚ
  y : ℚ
deriving DecidableEq, Repr

/-- Three-dimensional vector over ℚ (models glam `Vec3`). -/
structure Vec3 where
  x : ℚ
  y : ℚ
  z : ℚ
deriving DecidableEq, Repr

def Vec2.add (a b : Vec2) : Vec2 := ⟨a.x + b.x, a.y + b.y⟩

/-- Scalar multiplication `k * v` on `Vec2`. -/
def Vec2.smul (k : ℚ) (v : Vec2) : Vec2 := ⟨k * v.x, k * v.y⟩

/-- `Vec2::extend(z)` from the source: append a z component. -/
def Vec2.extend (v : Vec2) (z : ℚ) : Vec3 := ⟨v.x, v.y, z⟩

def Vec3.add (a b : Vec3) : Vec3 := ⟨a.x + b.x, a.y + b.y, a.z + b.z⟩

/-- Componentwise (Hadamard) product, as in `movement_this_frame * mover_mask`. -/
def Vec3.hmul (a b : Vec3) : Vec3 := ⟨a.x * b.x, a.y * b.y, a.z * b.z⟩

/-- `Collider` component from `src/demo/physics.rs`. -/
structure Collider where
  size : Vec2
  collides_with_player : Bool
  collides_with_projectile : Bool
deriving DecidableEq, Repr

/-- `check_collision` from `src/demo/physics.rs`: axis-aligned box test with
strict inequalities on the four corner comparisons.  `truncate()` drops the z
component, so only x and y participate. -/
def check_collision (a : Vec3) (a_collider : Collider) (b : Vec3) (b_collider : Collider) : Bool :=
  decide (a.x - a_collider.size.x / 2 < b.x + b_collider.size.x / 2) &&
  decide (a.x + a_collider.size.x / 2 > b.x - b_collider.size.x / 2) &&
  decide (a.y - a_collider.size.y / 2 < b.y + b_collider.size.y / 2) &&
  decide (a.y + a_collider.size.y / 2 > b.y - b_collider.size.y / 2)

/-- Left x edge of the rectangle centered at `c` with full size `col.size`. -/
def rectMinX (c : Vec3) (col : Collider) : ℚ := c.x - col.size.x / 2

def rectMaxX (c : Vec3) (col : Collider) : ℚ := c.x + col.size.x / 2

def rectMinY (c : Vec3) (col : Collider) : ℚ := c.y - col.size.y / 2

def rectMaxY (c : Vec3) (col : Collider) : ℚ := c.y + col.size.y / 2

/-- Spec-side predicate: the closed intervals `[lo1, hi1]` and `[lo2, hi2]`
share a segment of positive length (shared interior on this axis). -/
def axisOverlap (lo1 hi1 lo2 hi2 : ℚ) : Prop := max lo1 lo2 < min hi1 hi2

instance (lo1 hi1 lo2 hi2 : ℚ) : Decidable (axisOverlap lo1 hi1 lo2 hi2) := by
  unfold axisOverlap; infer_instance

/-- Spec-side predicate: a positive gap separates the two intervals. -/
def axisGap (lo1 hi1 lo2 hi2 : ℚ) : Prop := hi1 < lo2 ∨ hi2 < lo1

instance (lo1 hi1 lo2 hi2 : ℚ) : Decidable (axisGap lo1 hi1 lo2 hi2) := by
  unfold axisGap; infer_instance

/-- Spec-side predicate: the intervals intersect in exactly one point
(touching edges, zero-length intersection on this axis). -/
def axisTouch (lo1 hi1 lo2 hi2 : ℚ) : Prop := max lo1 lo2 = min hi1 hi2

instance (lo1 hi1 lo2 hi2 : ℚ) : Decidable (axisTouch lo1 hi1 lo2 hi2) := by
  unfold axisTouch; infer_instance

/-- `PLAYER_BASE_COLLIDER_SIZE` from `src/demo/client.rs`. -/
def PLAYER_BASE_COLLIDER_SIZE : Vec2 := ⟨14, 10⟩

/-- `calculate_score_growth` from `src/screens/gameplay.rs`:
`score as f32 * 0.1`, with `0.1` modelled exactly as `1/10`. -/
def calculate_score_growth (score : ℤ) : ℚ := (score : ℚ) * (1/10)

/-- The mutable per-player server state touched by `handle_score_event`:
score, uniform transform scale, and collider. -/
structure PlayerEnt where
  score : ℤ
  scale : ℚ
  collider : Collider
deriving DecidableEq, Repr

/-- `handle_score_event` from `src/screens/gameplay.rs` applied to one
`ScoreEvent` delta: add the delta to the score, set the transform scale to
`calculate_score_growth(score)` (`Vec3::splat(score_growth)`), and replace
the collider with size `PLAYER_BASE_COLLIDER_SIZE * score_growth`. -/
def handle_score_event (p : PlayerEnt) (delta : ℤ) : PlayerEnt :=
  let score' := p.score + delta
  let score_growth := calculate_score_growth score'
  { score := score'
    scale := score_growth
    collider :=
      { size := Vec2.smul score_growth PLAYER_BASE_COLLIDER_SIZE
        collides_with_player := true
        collides_with_projectile := true } }

/-- Visual scale the client derives from a snapshot score in
`client_sync_players` (`src/demo/client.rs`):
`1.0 + calculate_score_growth(score)` on the x and y axes. -/
def clientSnapshotScale (score : ℤ) : ℚ := 1 + calculate_score_growth score

/-- `Player` component from `src/demo/lib.rs`. -/
structure Player where
  id : ℕ
  score : ℤ
  is_ready : Bool
deriving DecidableEq, Repr

/-- A `ScoreEvent` (`src/screens/gameplay.rs`). -/
structure ScoreEvent where
  player : ℕ
  delta : ℤ
deriving DecidableEq, Repr

/-- One row of the non-projectile collider query of `move_projectiles`
(`src/bin/server.rs`): entity id, translation, collider, and the optional
`Player` component. -/
structure Target where
  entity : ℕ
  pos : Vec3
  collider : Collider
  player : Option Player
deriving DecidableEq, Repr

/-- One live projectile with its transform and collider
(`Projectile` component in `src/bin/server.rs`). -/
structure Projectile where
  entity : ℕ
  speed : ℚ
  direction : Vec2
  owner : ℕ
  pos : Vec3
  collider : Collider
deriving DecidableEq, Repr

/-- This tick's displacement of a projectile:
`direction.extend(0.0) * speed * dt`. -/
def projectileStep (dt : ℚ) (p : Projectile) : Vec3 :=
  Vec2.extend (Vec2.smul (p.speed * dt) p.direction) 0

/-- The hit test of `move_projectiles`: the target collides with
projectiles, is not the owner, and `check_collision` holds at the
projectile's prospective position. -/
def projectileHit (dt : ℚ) (p : Projectile) (t : Target) : Bool :=
  t.collider.collides_with_projectile &&
  decide (p.owner ≠ t.entity) &&
  check_collision (Vec3.add p.pos (projectileStep dt p)) p.collider t.pos t.collider

/-- First target hit by the projectile this tick, in query order. -/
def findHit (dt : ℚ) (p : Projectile) (targets : List Target) : Option Target :=
  targets.find? (projectileHit dt p)

/-- Score events sent on a hit: one event of delta `-min(5, score)` if the
struck target has a `Player` component, none otherwise. -/
def hitScoreEvents (t : Target) : List ScoreEvent :=
  match t.player with
  | some pl => [⟨t.entity, -(min 5 pl.score)⟩]
  | none => []

/-- Number of coins spawned on a hit: the Rust loop `for _ in 0..penalty`
with `penalty : i64` runs `max(penalty, 0)` times, i.e. `penalty.toNat`. -/
def hitCoinCount (t : Target) : ℕ :=
  match t.player with
  | some pl => (min 5 pl.score).toNat
  | none => 0

/-- Result of one `move_projectiles` fixed-timestep tick: surviving
projectiles with updated positions, emitted score events, and the number of
coins spawned. -/
structure ProjTickResult where
  projs : List Projectile
  events : List ScoreEvent
  coins : ℕ
deriving DecidableEq, Repr

/-- `move_projectiles` from `src/bin/server.rs`.  Faithful to the source's
control flow: on the first projectile with a qualifying hit the projectile
is despawned and the system body executes `return` — the remaining
projectiles are neither hit-tested nor moved this tick. -/
def move_projectiles (dt : ℚ) (targets : List Target) : List Projectile → ProjTickResult
  | [] => ⟨[], [], 0⟩
  | p :: rest =>
    match findHit dt p targets with
    | some t => ⟨rest, hitScoreEvents t, hitCoinCount t⟩
    | none =>
      let r := move_projectiles dt targets rest
      ⟨{ p with pos := Vec3.add p.pos (projectileStep dt p) } :: r.projs, r.events, r.coins⟩

/-- Concrete projectile used by the C1 witness and the C3 evaluation: it
moves right by one unit onto the struck player's position. -/
def demoProj : Projectile := ⟨1, 1, ⟨1, 0⟩, 0, ⟨0, 0, 0⟩, ⟨⟨12, 18⟩, true, true⟩⟩

/-- A second projectile, far away from every target, moving right. -/
def demoProjFar : Projectile := ⟨3, 1, ⟨1, 0⟩, 0, ⟨1000, 1000, 0⟩, ⟨⟨12, 18⟩, true, true⟩⟩

/-- A player target at the projectile's prospective position with score 3. -/
def demoTarget : Target := ⟨2, ⟨1, 0, 0⟩, ⟨⟨2, 2⟩, true, true⟩, some ⟨2, 3, false⟩⟩

/-- Screen state machine.  The `screens` module root (defining the `Screen`
enum) is not under `src/`; the variants are taken from their uses in
`src/bin/server.rs`, `src/screens/*.rs` and spec §4.5 (`Title`, `Lobby`,
`Gameplay`). -/
inductive Screen where
  | Title
  | Lobby
  | Gameplay
deriving DecidableEq, Repr

/-- Reliable server-to-client lifecycle messages (`ServerMessages` in
`src/demo/lib.rs`), restricted to the constructors the claims touch. -/
inductive ServerMsg where
  | SetPlayerReady (entity : ℕ) (is_ready : Bool)
  | StartGame
  | PlayerRemove (id : ℕ)
  | DespawnEntity (entity : ℕ)
deriving DecidableEq, Repr

/-- One lobby member: the `ServerLobby` map entry (`ClientId → Entity`)
joined with the entity's `Player` component. -/
structure LobbyEntry where
  client : ℕ
  entity : ℕ
  player : Player
deriving DecidableEq, Repr

/-- Result of handling one `PlayerCommand::ToggleReady`
(`server_update_system` in `src/bin/server.rs`). -/
structure ToggleResult where
  lobby : List LobbyEntry
  msgs : List ServerMsg
  startGame : Bool
  nextScreen : Option Screen
deriving DecidableEq, Repr

/-- The lobby after the sender's `is_ready` flag is flipped in place. -/
def toggledLobby (lobby : List LobbyEntry) (sender : ℕ) : List LobbyEntry :=
  lobby.map (fun e =>
    if e.client = sender then
      { e with player := { e.player with is_ready := !e.player.is_ready } }
    else e)

/-- The `SetPlayerReady` broadcast: sent iff the sender is in the lobby,
carrying the sender's entity and flipped flag. -/
def setReadyMsgs (lobby : List LobbyEntry) (sender : ℕ) : List ServerMsg :=
  match lobby.find? (fun e => decide (e.client = sender)) with
  | some e => [ServerMsg.SetPlayerReady e.entity (!e.player.is_ready)]
  | none => []

/-- The post-toggle all-ready check of `server_update_system`. -/
def allReady (lobby : List LobbyEntry) : Bool :=
  lobby.all (fun e => e.player.is_ready)

/-- The `ToggleReady` arm of `server_update_system`: flip the sender's
`is_ready` and broadcast `SetPlayerReady` (if the sender is in the lobby);
then, unless the lobby has exactly one player, broadcast `StartGame` and set
the next screen to `Gameplay` iff every member is ready after the toggle.
The current screen state is never consulted. -/
def toggleReady (lobby : List LobbyEntry) (sender : ℕ) : ToggleResult :=
  if (toggledLobby lobby sender).length = 1 then
    ⟨toggledLobby lobby sender, setReadyMsgs lobby sender, false, none⟩
  else if allReady (toggledLobby lobby sender) then
    ⟨toggledLobby lobby sender, setReadyMsgs lobby sender ++ [ServerMsg.StartGame],
      true, some Screen.Gameplay⟩
  else ⟨toggledLobby lobby sender, setReadyMsgs lobby sender, false, none⟩

/-- A ready lobby member used by witnesses. -/
def entryA : LobbyEntry := ⟨1, 10, ⟨1, 0, true⟩⟩

/-- A not-ready lobby member used by witnesses. -/
def entryB : LobbyEntry := ⟨2, 20, ⟨2, 0, false⟩⟩

/-- Authoritative server state relevant to the ready-check: the screen state
resource and the lobby. -/
structure ServerState where
  screen : Screen
  lobby : List LobbyEntry
deriving DecidableEq, Repr

/-- One `ToggleReady` command processed against the server state: the
handler runs `toggleReady` on the lobby and, when it fires, `next_screen`
is set to `Gameplay`. -/
def stepToggle (s : ServerState) (sender : ℕ) : ServerState × List ServerMsg :=
  let r := toggleReady s.lobby sender
  (⟨(match r.nextScreen with | some sc => sc | none => s.screen), r.lobby⟩, r.msgs)

/-- A sequence of `ToggleReady` commands, accumulating broadcast messages. -/
def runToggles (s : ServerState) : List ℕ → ServerState × List ServerMsg
  | [] => (s, [])
  | c :: cs =>
    let (s', ms) := stepToggle s c
    let (s'', ms') := runToggles s' cs
    (s'', ms ++ ms')

/-- How many `StartGame` broadcasts a message list contains. -/
def countStartGames (msgs : List ServerMsg) : ℕ :=
  (msgs.filter (fun m => decide (m = ServerMsg.StartGame))).length

/-- Result of handling one `ServerEvent::ClientDisconnected`. -/
structure DisconnectResult where
  lobby : List LobbyEntry
  despawned : List ℕ
  msgs : List ServerMsg
deriving DecidableEq, Repr

/-- The `ClientDisconnected` arm of `server_update_system`: if the client is
in the lobby, remove it and despawn its entity; in all cases broadcast
`PlayerRemove` — the broadcast sits outside the `if let`. -/
def handleDisconnect (lobby : List LobbyEntry) (cid : ℕ) : DisconnectResult :=
  match lobby.find? (fun e => decide (e.client = cid)) with
  | some e =>
    ⟨lobby.filter (fun x => decide (x.client ≠ cid)), [e.entity],
      [ServerMsg.PlayerRemove cid]⟩
  | none => ⟨lobby, [], [ServerMsg.PlayerRemove cid]⟩

/-- One row of the collider query of `apply_movement`
(`src/demo/movement.rs`): entity, transform, collider, and whether the
entity has a `Coin` component. -/
structure MoveEnt where
  entity : ℕ
  pos : Vec3
  collider : Collider
  isCoin : Bool
deriving DecidableEq, Repr

/-- A moving entity: its `MovementController` (`intent`, `max_speed`)
joined with its transform and collider, as collected into `movement_data`. -/
structure Mover where
  entity : ℕ
  pos : Vec3
  collider : Collider
  intent : Vec2
  max_speed : ℚ
deriving DecidableEq, Repr

/-- `movement_this_frame = (max_speed * intent).extend(0.0) * dt`. -/
def mover_movement (dt : ℚ) (m : Mover) : Vec3 :=
  Vec2.extend (Vec2.smul dt (Vec2.smul m.max_speed m.intent)) 0

/-- The position probed by the X-axis collision test:
`translation + movement_this_frame * (1, 0, 1)`. -/
def moverProbeX (dt : ℚ) (m : Mover) : Vec3 :=
  Vec3.add m.pos (Vec3.hmul (mover_movement dt m) ⟨1, 0, 1⟩)

/-- The position probed by the Y-axis collision test:
`translation + movement_this_frame * (0, 1, 1)`. -/
def moverProbeY (dt : ℚ) (m : Mover) : Vec3 :=
  Vec3.add m.pos (Vec3.hmul (mover_movement dt m) ⟨0, 1, 1⟩)

/-- Accumulated state of the inner collider loop of `apply_movement`:
the movement mask, emitted score events, coins despawned, and whether
`continue 'outer` (skip this mover entirely) was taken. -/
structure ScanResult where
  mask : Vec3
  events : List ScoreEvent
  despawns : List ℕ
  skip : Bool
deriving DecidableEq, Repr

/-- The inner collider loop of `apply_movement` for one mover, faithful to
the source: self is skipped; an X-axis overlap with a coin consumes the coin
(+1 score event, despawn) and `continue`s (the Y test of that collider is
skipped); an X-axis overlap with a non-coin zeroes `mask.x`; likewise for
the Y axis; if the mask ever equals `(0, 0, 0)` the mover is skipped
(`continue 'outer`) — unreachable in fact, since `mask.z` stays 1. -/
def applyMoveScan (px py : Vec3) (mc : Collider) (me : ℕ) :
    List MoveEnt → Vec3 → ScanResult
  | [], mask => ⟨mask, [], [], false⟩
  | c :: rest, mask =>
    if c.entity = me then applyMoveScan px py mc me rest mask
    else if c.collider.collides_with_player &&
        check_collision px mc c.pos c.collider && c.isCoin then
      let r := applyMoveScan px py mc me rest mask
      ⟨r.mask, ⟨me, 1⟩ :: r.events, c.entity :: r.despawns, r.skip⟩
    else
      let mask1 := if c.collider.collides_with_player &&
          check_collision px mc c.pos c.collider then (⟨0, mask.y, mask.z⟩ : Vec3) else mask
      if c.collider.collides_with_player &&
          check_collision py mc c.pos c.collider && c.isCoin then
        let r := applyMoveScan px py mc me rest mask1
        ⟨r.mask, ⟨me, 1⟩ :: r.events, c.entity :: r.despawns, r.skip⟩
      else
        let mask2 := if c.collider.collides_with_player &&
            check_collision py mc c.pos c.collider then (⟨mask1.x, 0, mask1.z⟩ : Vec3)
          else mask1
        if mask2 = (⟨0, 0, 0⟩ : Vec3) then ⟨mask2, [], [], true⟩
        else applyMoveScan px py mc me rest mask2

/-- Spec predicate: some blocking (player-colliding, non-coin, non-self)
collider overlaps the probe position `p`. -/
def blockedAt (p : Vec3) (mc : Collider) (me : ℕ) (cs : List MoveEnt) : Bool :=
  cs.any (fun c => decide (c.entity ≠ me) && !c.isCoin &&
    c.collider.collides_with_player && check_collision p mc c.pos c.collider)

/-- Spec predicate: the collider is a (non-self, player-colliding) coin
overlapping the X probe or the Y probe — exactly the coins consumed by the
scan. -/
def coinTouched (px py : Vec3) (mc : Collider) (me : ℕ) (c : MoveEnt) : Bool :=
  decide (c.entity ≠ me) && c.isCoin && c.collider.collides_with_player &&
  (check_collision px mc c.pos c.collider || check_collision py mc c.pos c.collider)

/-- The body of the `'outer` loop of `apply_movement` for one mover: run the
collider scan from mask `(1, 1, 1)`; if `continue 'outer` was taken, the
position is unchanged; otherwise the masked displacement is applied.
Returns the new position, score events, and despawned coin entities. -/
def resolveMover (dt : ℚ) (m : Mover) (cs : List MoveEnt) :
    Vec3 × List ScoreEvent × List ℕ :=
  if (applyMoveScan (moverProbeX dt m) (moverProbeY dt m) m.collider m.entity cs ⟨1, 1, 1⟩).skip
  then
    (m.pos,
     (applyMoveScan (moverProbeX dt m) (moverProbeY dt m) m.collider m.entity cs ⟨1, 1, 1⟩).events,
     (applyMoveScan (moverProbeX dt m) (moverProbeY dt m) m.collider m.entity cs ⟨1, 1, 1⟩).despawns)
  else
    (Vec3.add m.pos (Vec3.hmul (mover_movement dt m)
       (applyMoveScan (moverProbeX dt m) (moverProbeY dt m) m.collider m.entity cs ⟨1, 1, 1⟩).mask),
     (applyMoveScan (moverProbeX dt m) (moverProbeY dt m) m.collider m.entity cs ⟨1, 1, 1⟩).events,
     (applyMoveScan (moverProbeX dt m) (moverProbeY dt m) m.collider m.entity cs ⟨1, 1, 1⟩).despawns)

/-- One world row of the `apply_movement` queries: an entity with its
transform, collider, `Coin` marker, and an optional `MovementController`
(intent and max speed). -/
structure WorldEnt where
  entity : ℕ
  pos : Vec3
  collider : Collider
  isCoin : Bool
  controller : Option (Vec2 × ℚ)
deriving DecidableEq, Repr

def WorldEnt.toMoveEnt (w : WorldEnt) : MoveEnt := ⟨w.entity, w.pos, w.collider, w.isCoin⟩

/-- `apply_movement` from `src/demo/movement.rs`: collect `movement_data`
from the initial state, then resolve each mover in order against the
then-current collider states (coin despawns are deferred commands, so
consumed coins stay in the collider list for the rest of the tick). -/
def apply_movement (dt : ℚ) (world : List WorldEnt) :
    List WorldEnt × List ScoreEvent × List ℕ :=
  let movers := world.filterMap (fun e =>
    e.controller.map (fun ctl => (⟨e.entity, e.pos, e.collider, ctl.1, ctl.2⟩ : Mover)))
  movers.foldl (fun acc md =>
    let r := resolveMover dt md (acc.1.map WorldEnt.toMoveEnt)
    (acc.1.map (fun w => if w.entity = md.entity then { w with pos := r.1 } else w),
     acc.2.1 ++ r.2.1, acc.2.2 ++ r.2.2)) (world, ([] : List ScoreEvent), ([] : List ℕ))

/-- One index of the parallel arrays of a `NetworkedEntities` snapshot
(`src/demo/lib.rs`): server entity id, translation, optional facing
direction, optional score. -/
structure SnapEntry where
  entity : ℕ
  translation : Vec3
  facing : Option Vec2
  score : Option ℤ
deriving DecidableEq, Repr

/-- Client-side mirrored entity state touched by the snapshot loop of
`client_sync_players` (`src/demo/client.rs`): transform translation and
scale, the `FacingDirection` component, whether the entity has a `Player`
component, and the mirrored score. -/
structure LocalEnt where
  pos : Vec3
  scale : Vec3
  facing : Option Vec2
  isPlayer : Bool
  score : ℤ
deriving DecidableEq, Repr

/-- Applying one snapshot entry to a mapped local entity: the transform is
rebuilt from the snapshot translation with default scale `(1, 1, 1)`; a
present facing direction is inserted; a present score updates the mirrored
player's score and sets the scale to
`(1 + calculate_score_growth(score), same, 1)` — only if the entity has a
`Player` component. -/
def updateLocal (ent : LocalEnt) (e : SnapEntry) : LocalEnt :=
  let ent1 := match e.facing with
    | some d => { ent with facing := some d }
    | none => ent
  match e.score with
  | some s =>
    if ent.isPlayer then
      { ent1 with
        pos := e.translation
        score := s
        scale := ⟨clientSnapshotScale s, clientSnapshotScale s, 1⟩ }
    else { ent1 with pos := e.translation, scale := ⟨1, 1, 1⟩ }
  | none => { ent1 with pos := e.translation, scale := ⟨1, 1, 1⟩ }

/-- One iteration of the `NetworkedEntities` loop of `client_sync_players`:
look the server entity id up in the `NetworkMapping`; on a miss the entry is
silently skipped (nothing in the local state is touched), otherwise the
mapped local entity is updated. -/
def applySnapEntry (mapping : List (ℕ × ℕ)) (locals : List (ℕ × LocalEnt))
    (e : SnapEntry) : List (ℕ × LocalEnt) :=
  match mapping.find? (fun kv => decide (kv.1 = e.entity)) with
  | none => locals
  | some kv => locals.map (fun l => if l.1 = kv.2 then (l.1, updateLocal l.2 e) else l)

/-- The whole snapshot loop: fold `applySnapEntry` over the entries. -/
def client_sync_snapshot (mapping : List (ℕ × ℕ)) (locals : List (ℕ × LocalEnt))
    (entries : List SnapEntry) : List (ℕ × LocalEnt) :=
  entries.foldl (applySnapEntry mapping) locals

/-- A concrete local entity for the C9 witness. -/
def localDuck : LocalEnt := ⟨⟨0, 0, 0⟩, ⟨1, 1, 1⟩, none, true, 0⟩

/-- `PlayerInput` from `src/demo/lib.rs`. -/
structure PlayerInput where
  up : Bool
  down : Bool
  left : Bool
  right : Bool
deriving DecidableEq, Repr

/-- A boolean input flag cast through `i8` to `f32`. -/
noncomputable def boolAxis (b : Bool) : ℝ := if b then 1 else 0

/-- glam `Vec2::normalize_or_zero`, over exact reals: the zero vector stays
zero, any other vector is scaled by the reciprocal of its length. -/
noncomputable def normalize_or_zero (x y : ℝ) : ℝ × ℝ :=
  if x ^ 2 + y ^ 2 = 0 then (0, 0)
  else (x / Real.sqrt (x ^ 2 + y ^ 2), y / Real.sqrt (x ^ 2 + y ^ 2))

/-- `move_players_system` from `src/bin/server.rs`: the movement intent is
`Vec2::new(right - left, up - down).normalize_or_zero()`. -/
noncomputable def move_players_intent (i : PlayerInput) : ℝ × ℝ :=
  normalize_or_zero (boolAxis i.right - boolAxis i.left) (boolAxis i.up - boolAxis i.down)

theorem check_collision_iff (a b : Vec3) (ac bc : Collider) :
    check_collision a ac b bc = true ↔
      (rectMinX a ac < rectMaxX b bc ∧ rectMaxX a ac > rectMinX b bc ∧
       rectMinY a ac < rectMaxY b bc ∧ rectMaxY a ac > rectMinY b bc) := by
  simp [check_collision, rectMinX, rectMaxX, rectMinY, rectMaxY, and_assoc]

/-- C7 counterexample: a collider of size `(0, 0)` placed strictly inside a
positive-size collider does register a collision, refuting the claim that a
zero-size collider never collides with anything. -/
theorem C7_counterexample :
    check_collision ⟨0, 0, 0⟩ ⟨⟨0, 0⟩, false, false⟩ ⟨0, 0, 0⟩ ⟨⟨2, 2⟩, true, false⟩ = true := by
  rw [check_collision_iff]
  norm_num [rectMinX, rectMaxX, rectMinY, rectMaxY]

/-- C7 (amended): for colliders of positive size, `check_collision` returns
true iff the two rectangles share interior length on both axes; any positive
gap on either axis yields false for all sizes; and touching edges
(zero-length intersection on an axis) yield false for positive sizes.  The
zero-size clause of the original claim is dropped, as `C7_counterexample`
shows a zero-size collider strictly inside a box does collide. -/
theorem C7_overlap_spec (a b : Vec3) (ac bc : Collider) :
    (0 < ac.size.x → 0 < ac.size.y → 0 < bc.size.x → 0 < bc.size.y →
      (check_collision a ac b bc = true ↔
        (axisOverlap (rectMinX a ac) (rectMaxX a ac) (rectMinX b bc) (rectMaxX b bc) ∧
         axisOverlap (rectMinY a ac) (rectMaxY a ac) (rectMinY b bc) (rectMaxY b bc))))
    ∧ ((axisGap (rectMinX a ac) (rectMaxX a ac) (rectMinX b bc) (rectMaxX b bc) ∨
        axisGap (rectMinY a ac) (rectMaxY a ac) (rectMinY b bc) (rectMaxY b bc)) →
       check_collision a ac b bc = false)
    ∧ (0 < ac.size.x → 0 < ac.size.y → 0 < bc.size.x → 0 < bc.size.y →
       (axisTouch (rectMinX a ac) (rectMaxX a ac) (rectMinX b bc) (rectMaxX b bc) ∨
        axisTouch (rectMinY a ac) (rectMaxY a ac) (rectMinY b bc) (rectMaxY b bc)) →
       check_collision a ac b bc = false) := by
  have hminx : rectMinX a ac < rectMaxX a ac ↔ 0 < ac.size.x := by
    unfold rectMinX rectMaxX; constructor <;> intro h <;> linarith
  have hminy : rectMinY a ac < rectMaxY a ac ↔ 0 < ac.size.y := by
    unfold rectMinY rectMaxY; constructor <;> intro h <;> linarith
  have hminbx : rectMinX b bc < rectMaxX b bc ↔ 0 < bc.size.x := by
    unfold rectMinX rectMaxX; constructor <;> intro h <;> linarith
  have hminby : rectMinY b bc < rectMaxY b bc ↔ 0 < bc.size.y := by
    unfold rectMinY rectMaxY; constructor <;> intro h <;> linarith
  refine ⟨?_, ?_, ?_⟩
  · intro hax hay hbx hby
    rw [check_collision_iff]
    unfold axisOverlap
    rw [max_lt_iff, max_lt_iff, lt_min_iff, lt_min_iff, lt_min_iff, lt_min_iff]
    constructor
    · rintro ⟨h1, h2, h3, h4⟩
      exact ⟨⟨⟨hminx.mpr hax, h1⟩, h2, hminbx.mpr hbx⟩, ⟨⟨hminy.mpr hay, h3⟩, h4, hminby.mpr hby⟩⟩
    · rintro ⟨⟨⟨_, h1⟩, h2, _⟩, ⟨⟨_, h3⟩, h4, _⟩⟩
      exact ⟨h1, h2, h3, h4⟩
  · intro hgap
    rw [← Bool.not_eq_true, check_collision_iff]
    rintro ⟨h1, h2, h3, h4⟩
    rcases hgap with hg | hg <;> rcases hg with hg | hg <;>
      simp only [rectMinX, rectMaxX, rectMinY, rectMaxY] at * <;> linarith
  · intro hax hay hbx hby htouch
    rw [← Bool.not_eq_true, check_collision_iff]
    rintro ⟨h1, h2, h3, h4⟩
    have pax := hminx.mpr hax
    have pay := hminy.mpr hay
    have pbx := hminbx.mpr hbx
    have pby := hminby.mpr hby
    rcases htouch with ht | ht
    · unfold axisTouch at ht
      rcases max_cases (rectMinX a ac) (rectMinX b bc) with ⟨hm, _⟩ | ⟨hm, _⟩ <;>
        rcases min_cases (rectMaxX a ac) (rectMaxX b bc) with ⟨hn, _⟩ | ⟨hn, _⟩ <;>
          rw [hm, hn] at ht <;> linarith
    · unfold axisTouch at ht
      rcases max_cases (rectMinY a ac) (rectMinY b bc) with ⟨hm, _⟩ | ⟨hm, _⟩ <;>
        rcases min_cases (rectMaxY a ac) (rectMaxY b bc) with ⟨hn, _⟩ | ⟨hn, _⟩ <;>
          rw [hm, hn] at ht <;> linarith

/-- C7 witness: the amended theorem applied at concrete colliders — two unit
squares overlapping, separated by a gap, and exactly touching. -/
theorem C7_witness :
    check_collision ⟨0, 0, 0⟩ ⟨⟨1, 1⟩, false, false⟩ ⟨(1 : ℚ)/2, 0, 0⟩ ⟨⟨1, 1⟩, false, false⟩ = true ∧
    check_collision ⟨0, 0, 0⟩ ⟨⟨1, 1⟩, false, false⟩ ⟨3, 0, 0⟩ ⟨⟨1, 1⟩, false, false⟩ = false ∧
    check_collision ⟨0, 0, 0⟩ ⟨⟨1, 1⟩, false, false⟩ ⟨1, 0, 0⟩ ⟨⟨1, 1⟩, false, false⟩ = false := by
  refine ⟨((C7_overlap_spec ⟨0, 0, 0⟩ ⟨(1 : ℚ)/2, 0, 0⟩ ⟨⟨1, 1⟩, false, false⟩
        ⟨⟨1, 1⟩, false, false⟩).1 (by norm_num) (by norm_num) (by norm_num)
        (by norm_num)).mpr
        ⟨by norm_num [axisOverlap, rectMinX, rectMaxX, max_lt_iff, lt_min_iff],
         by norm_num [axisOverlap, rectMinY, rectMaxY, max_lt_iff, lt_min_iff]⟩,
      (C7_overlap_spec ⟨0, 0, 0⟩ ⟨3, 0, 0⟩ ⟨⟨1, 1⟩, false, false⟩
        ⟨⟨1, 1⟩, false, false⟩).2.1
        (Or.inl (Or.inl (by norm_num [rectMinX, rectMaxX]))),
      (C7_overlap_spec ⟨0, 0, 0⟩ ⟨1, 0, 0⟩ ⟨⟨1, 1⟩, false, false⟩
        ⟨⟨1, 1⟩, false, false⟩).2.2 (by norm_num) (by norm_num) (by norm_num)
        (by norm_num)
        (Or.inl (by norm_num [axisTouch, rectMinX, rectMaxX, max_def, min_def]))⟩

/-- C4 counterexample: the claim says the server uses the identical formula
`1 + 0.1 * score` for the struck player's scale; but applying a zero score
delta to a player with score 0 leaves the server-side scale at `0.1 * 0 = 0`
while the claimed formula gives 1 (the client indeed computes 1). -/
theorem C4_counterexample :
    (handle_score_event ⟨0, 1, ⟨⟨14, 10⟩, true, true⟩⟩ 0).scale ≠
      1 + (1/10) * ((0 : ℤ) : ℚ) ∧
    clientSnapshotScale 0 = 1 + (1/10) * ((0 : ℤ) : ℚ) := by
  constructor
  · norm_num [handle_score_event, calculate_score_growth]
  · norm_num [clientSnapshotScale, calculate_score_growth]

/-- C4 (amended): the client computes the snapshot scale as
`1 + 0.1 * score`, but the server sets the struck player's transform scale
(and collider growth factor) to `0.1 * score` without the leading 1 — the
two formulas differ by exactly 1 at every score. -/
theorem C4_scale_formulas (p : PlayerEnt) (delta : ℤ) (s : ℤ) :
    clientSnapshotScale s = 1 + (s : ℚ) / 10 ∧
    (handle_score_event p delta).scale = ((p.score + delta : ℤ) : ℚ) / 10 ∧
    (handle_score_event p delta).collider.size =
      Vec2.smul ((handle_score_event p delta).scale) PLAYER_BASE_COLLIDER_SIZE ∧
    clientSnapshotScale (p.score + delta) = (handle_score_event p delta).scale + 1 := by
  refine ⟨?_, ?_, ?_, ?_⟩
  · unfold clientSnapshotScale calculate_score_growth; ring
  · unfold handle_score_event calculate_score_growth; push_cast; ring
  · rfl
  · unfold clientSnapshotScale handle_score_event calculate_score_growth; push_cast; ring

/-- C1: when a projectile's prospective position hits a player target (never
its owner — `findHit` requires `owner ≠ entity`), the emitted score event
carries delta exactly `-min(5, s)` for current score `s ≥ 0`, exactly
`min(5, s)` coins are spawned, and applying the event through
`handle_score_event` yields score `s - min(5, s) ≥ 0`; in particular a
struck player at score 0 spawns no coins and stays at score 0. -/
theorem C1_projectile_hit_score_penalty (dt : ℚ) (targets : List Target)
    (p : Projectile) (rest : List Projectile) (t : Target) (pl : Player)
    (pe : PlayerEnt)
    (hhit : findHit dt p targets = some t)
    (hpl : t.player = some pl)
    (hs : 0 ≤ pl.score)
    (hpe : pe.score = pl.score) :
    (move_projectiles dt targets (p :: rest)).events = [⟨t.entity, -(min 5 pl.score)⟩] ∧
    ((move_projectiles dt targets (p :: rest)).coins : ℤ) = min 5 pl.score ∧
    (handle_score_event pe (-(min 5 pl.score))).score = pl.score - min 5 pl.score ∧
    0 ≤ (handle_score_event pe (-(min 5 pl.score))).score ∧
    (pl.score = 0 →
      (move_projectiles dt targets (p :: rest)).coins = 0 ∧
      (handle_score_event pe (-(min 5 pl.score))).score = 0) := by
  have hmin : min 5 pl.score ≤ pl.score := min_le_right _ _
  have hmin0 : 0 ≤ min 5 pl.score := le_min (by norm_num) hs
  have hres : move_projectiles dt targets (p :: rest) =
      ⟨rest, hitScoreEvents t, hitCoinCount t⟩ := by
    unfold move_projectiles
    rw [hhit]
  refine ⟨?_, ?_, ?_, ?_, ?_⟩
  · rw [hres]
    simp [hitScoreEvents, hpl]
  · rw [hres]
    simp only [hitCoinCount, hpl]
    omega
  · simp [handle_score_event, hpe, sub_eq_add_neg]
  · simp only [handle_score_event, hpe]
    omega
  · intro h0
    constructor
    · rw [hres]
      simp [hitCoinCount, hpl, h0]
    · simp only [handle_score_event, hpe, h0]
      norm_num

theorem demoProj_hits : findHit 1 demoProj [demoTarget] = some demoTarget := by
  unfold findHit demoProj demoTarget
  rw [List.find?_cons]
  have : projectileHit 1 ⟨1, 1, ⟨1, 0⟩, 0, ⟨0, 0, 0⟩, ⟨⟨12, 18⟩, true, true⟩⟩
      ⟨2, ⟨1, 0, 0⟩, ⟨⟨2, 2⟩, true, true⟩, some ⟨2, 3, false⟩⟩ = true := by
    unfold projectileHit projectileStep Vec2.smul Vec2.extend Vec3.add
    simp only [Bool.and_eq_true, decide_eq_true_eq]
    refine ⟨⟨trivial, by norm_num⟩, ?_⟩
    rw [check_collision_iff]
    norm_num [rectMinX, rectMaxX, rectMinY, rectMaxY]
  rw [this]

theorem demoProjFar_misses : findHit 1 demoProjFar [demoTarget] = none := by
  unfold findHit demoProjFar demoTarget
  rw [List.find?_cons]
  have : projectileHit 1 ⟨3, 1, ⟨1, 0⟩, 0, ⟨1000, 1000, 0⟩, ⟨⟨12, 18⟩, true, true⟩⟩
      ⟨2, ⟨1, 0, 0⟩, ⟨⟨2, 2⟩, true, true⟩, some ⟨2, 3, false⟩⟩ = false := by
    unfold projectileHit projectileStep Vec2.smul Vec2.extend Vec3.add
    rw [← Bool.not_eq_true]
    simp only [Bool.and_eq_true, decide_eq_true_eq]
    rintro ⟨-, hc⟩
    rw [check_collision_iff] at hc
    simp only [rectMinX, rectMaxX, rectMinY, rectMaxY] at hc
    norm_num at hc
  rw [this]
  rfl

/-- C1 witness: the theorem applied at `demoProj` striking `demoTarget`
(score 3): one score event of delta `-3`, three coins, and the post-event
score is 0. -/
theorem C1_witness :
    (move_projectiles 1 [demoTarget] [demoProj]).events = [⟨2, -(min 5 3)⟩] ∧
    ((move_projectiles 1 [demoTarget] [demoProj]).coins : ℤ) = min 5 3 ∧
    (handle_score_event ⟨3, 0, ⟨⟨14, 10⟩, true, true⟩⟩ (-(min 5 3))).score = 3 - min 5 3 ∧
    0 ≤ (handle_score_event ⟨3, 0, ⟨⟨14, 10⟩, true, true⟩⟩ (-(min 5 3))).score ∧
    ((3 : ℤ) = 0 →
      (move_projectiles 1 [demoTarget] [demoProj]).coins = 0 ∧
      (handle_score_event ⟨3, 0, ⟨⟨14, 10⟩, true, true⟩⟩ (-(min 5 3))).score = 0) :=
  C1_projectile_hit_score_penalty 1 [demoTarget] demoProj [] demoTarget
    ⟨2, 3, false⟩ ⟨3, 0, ⟨⟨14, 10⟩, true, true⟩⟩ demoProj_hits rfl (by norm_num) rfl

/-- C3 (code bug evaluation): `move_projectiles` executes `return` instead
of continuing with the next projectile after a hit.  With projectiles
`[demoProj, demoProjFar]`, `demoProj` hits and is destroyed, and
`demoProjFar` — which collides with nothing (`demoProjFar_misses`) — is left
at its original position instead of advancing by
`direction * speed * dt = (1, 0, 0)`. -/
theorem C3_return_freezes_other_projectiles :
    (move_projectiles 1 [demoTarget] [demoProj, demoProjFar]).projs = [demoProjFar] ∧
    findHit 1 demoProjFar [demoTarget] = none ∧
    demoProjFar.pos = ⟨1000, 1000, 0⟩ ∧
    (move_projectiles 1 [demoTarget] [demoProjFar]).projs =
      [{ demoProjFar with pos := ⟨1001, 1000, 0⟩ }] := by
  refine ⟨?_, demoProjFar_misses, rfl, ?_⟩
  · unfold move_projectiles
    rw [demoProj_hits]
  · unfold move_projectiles
    rw [demoProjFar_misses]
    unfold move_projectiles
    simp only
    congr 1
    unfold demoProjFar projectileStep Vec2.smul Vec2.extend Vec3.add
    simp only [Projectile.mk.injEq, Vec3.mk.injEq]
    norm_num

theorem toggledLobby_length (lobby : List LobbyEntry) (sender : ℕ) :
    (toggledLobby lobby sender).length = lobby.length :=
  List.length_map _ _

theorem setReadyMsgs_no_start (lobby : List LobbyEntry) (sender : ℕ) :
    ServerMsg.StartGame ∉ setReadyMsgs lobby sender := by
  unfold setReadyMsgs
  rcases h : lobby.find? (fun e => decide (e.client = sender)) with - | e <;> rw [h]
  · exact List.not_mem_nil _
  · intro hm
    exact ServerMsg.noConfusion (List.mem_singleton.mp hm)

theorem toggleReady_len1 (lobby : List LobbyEntry) (sender : ℕ)
    (h : lobby.length = 1) :
    toggleReady lobby sender =
      ⟨toggledLobby lobby sender, setReadyMsgs lobby sender, false, none⟩ := by
  unfold toggleReady
  rw [if_pos (by rw [toggledLobby_length]; exact h)]

theorem toggleReady_started (lobby : List LobbyEntry) (sender : ℕ)
    (h : ¬ lobby.length = 1) (hall : allReady (toggledLobby lobby sender) = true) :
    toggleReady lobby sender =
      ⟨toggledLobby lobby sender, setReadyMsgs lobby sender ++ [ServerMsg.StartGame],
        true, some Screen.Gameplay⟩ := by
  unfold toggleReady
  rw [if_neg (by rw [toggledLobby_length]; exact h), if_pos hall]

theorem toggleReady_not_started (lobby : List LobbyEntry) (sender : ℕ)
    (h : ¬ lobby.length = 1) (hall : ¬ allReady (toggledLobby lobby sender) = true) :
    toggleReady lobby sender =
      ⟨toggledLobby lobby sender, setReadyMsgs lobby sender, false, none⟩ := by
  unfold toggleReady
  rw [if_neg (by rw [toggledLobby_length]; exact h), if_neg hall]

/-- C2: a `ToggleReady` in a lobby of exactly one player never broadcasts
`StartGame`; in a lobby of two or more players, `StartGame` is broadcast and
the server transitions to `Gameplay` if and only if every member's
`is_ready` flag is true after the toggle. -/
theorem C2_ready_check (lobby : List LobbyEntry) (sender : ℕ) :
    (lobby.length = 1 →
      ServerMsg.StartGame ∉ (toggleReady lobby sender).msgs ∧
      (toggleReady lobby sender).startGame = false ∧
      (toggleReady lobby sender).nextScreen = none) ∧
    (2 ≤ lobby.length →
      ((ServerMsg.StartGame ∈ (toggleReady lobby sender).msgs ∧
        (toggleReady lobby sender).nextScreen = some Screen.Gameplay) ↔
       (toggleReady lobby sender).lobby.all (fun e => e.player.is_ready) = true)) := by
  constructor
  · intro h1
    rw [toggleReady_len1 lobby sender h1]
    exact ⟨setReadyMsgs_no_start lobby sender, rfl, rfl⟩
  · intro h2
    have hne : ¬ lobby.length = 1 := by omega
    by_cases hall : allReady (toggledLobby lobby sender) = true
    · rw [toggleReady_started lobby sender hne hall]
      constructor
      · intro _; exact hall
      · intro _
        exact ⟨List.mem_append_right _ (List.mem_singleton.mpr rfl), rfl⟩
    · rw [toggleReady_not_started lobby sender hne hall]
      constructor
      · rintro ⟨hm, -⟩
        exact absurd hm (setReadyMsgs_no_start lobby sender)
      · intro hc; exact absurd hc hall

/-- C2 witness: the theorem applied to a singleton lobby (no `StartGame`)
and to a two-player lobby where the toggle makes everyone ready (the iff,
instantiated). -/
theorem C2_witness :
    (ServerMsg.StartGame ∉ (toggleReady [entryA] 1).msgs ∧
     (toggleReady [entryA] 1).startGame = false ∧
     (toggleReady [entryA] 1).nextScreen = none) ∧
    ((ServerMsg.StartGame ∈ (toggleReady [entryA, entryB] 2).msgs ∧
      (toggleReady [entryA, entryB] 2).nextScreen = some Screen.Gameplay) ↔
     (toggleReady [entryA, entryB] 2).lobby.all (fun e => e.player.is_ready) = true) :=
  ⟨(C2_ready_check [entryA] 1).1 rfl,
   (C2_ready_check [entryA, entryB] 2).2 (by norm_num)⟩

/-- C6 counterexample: two players toggle ready, the server broadcasts
`StartGame` and transitions to `Gameplay`; player 1 then re-toggles twice
and the server broadcasts `StartGame` a second time — refuting the claim
that no further `StartGame` follows after the transition. -/
theorem C6_counterexample :
    countStartGames (runToggles ⟨Screen.Lobby, [entryB, ⟨3, 30, ⟨3, 0, false⟩⟩]⟩ [2, 3]).2 = 1 ∧
    (runToggles ⟨Screen.Lobby, [entryB, ⟨3, 30, ⟨3, 0, false⟩⟩]⟩ [2, 3]).1.screen =
      Screen.Gameplay ∧
    countStartGames
      (runToggles ⟨Screen.Lobby, [entryB, ⟨3, 30, ⟨3, 0, false⟩⟩]⟩ [2, 3, 2, 2]).2 = 2 := by
  refine ⟨?_, ?_, ?_⟩ <;> rfl

/-- C6 (amended): the `ToggleReady` handler never reads the screen state —
every toggle after which the lobby (of size ≠ 1) is entirely ready
broadcasts `StartGame`, including after the server has already transitioned
to `Gameplay`; re-toggling ready flags therefore causes additional
`StartGame` broadcasts, one per re-entry into the all-ready state. -/
theorem C6_startgame_characterization (s : ServerState) (sender : ℕ) :
    (ServerMsg.StartGame ∈ (stepToggle s sender).2 ↔
      ((toggleReady s.lobby sender).lobby.length ≠ 1 ∧
       (toggleReady s.lobby sender).lobby.all (fun e => e.player.is_ready) = true)) ∧
    (∀ sc : Screen, (stepToggle ⟨sc, s.lobby⟩ sender).2 = (stepToggle s sender).2) := by
  constructor
  · show ServerMsg.StartGame ∈ (toggleReady s.lobby sender).msgs ↔ _
    by_cases h1 : s.lobby.length = 1
    · rw [toggleReady_len1 s.lobby sender h1]
      constructor
      · intro hm; exact absurd hm (setReadyMsgs_no_start s.lobby sender)
      · rintro ⟨hne, -⟩
        exact absurd (by rw [toggledLobby_length]; exact h1) hne
    · by_cases hall : allReady (toggledLobby s.lobby sender) = true
      · rw [toggleReady_started s.lobby sender h1 hall]
        constructor
        · intro _
          exact ⟨by rw [toggledLobby_length]; exact h1, hall⟩
        · intro _; exact List.mem_append_right _ (List.mem_singleton.mpr rfl)
      · rw [toggleReady_not_started s.lobby sender h1 hall]
        constructor
        · intro hm; exact absurd hm (setReadyMsgs_no_start s.lobby sender)
        · rintro ⟨-, hc⟩; exact absurd hc hall
  · intro sc; rfl

/-- C5 counterexample: disconnecting client 42 from an empty lobby despawns
nothing and leaves the lobby unchanged, but still broadcasts a
`PlayerRemove` message — refuting the claim that no `PlayerRemove` is
broadcast for an absent client. -/
theorem C5_counterexample :
    (handleDisconnect [] 42).despawned = [] ∧
    (handleDisconnect [] 42).msgs = [ServerMsg.PlayerRemove 42] ∧
    (handleDisconnect [] 42).msgs ≠ [] := by
  refine ⟨rfl, rfl, ?_⟩
  intro hc
  exact List.noConfusion hc

/-- C5 (amended): handling a disconnect for a client id absent from the
lobby does not despawn any entity and leaves the lobby unchanged (no
panic), but it does broadcast exactly one `PlayerRemove` message for that
id — the broadcast is unconditional in the source. -/
theorem C5_absent_disconnect (lobby : List LobbyEntry) (cid : ℕ)
    (h : ∀ e ∈ lobby, e.client ≠ cid) :
    (handleDisconnect lobby cid).lobby = lobby ∧
    (handleDisconnect lobby cid).despawned = [] ∧
    (handleDisconnect lobby cid).msgs = [ServerMsg.PlayerRemove cid] := by
  have hfind : lobby.find? (fun e => decide (e.client = cid)) = none := by
    rw [List.find?_eq_none]
    intro e he
    simpa using h e he
  unfold handleDisconnect
  rw [hfind]
  exact ⟨rfl, rfl, rfl⟩

/-- C5 witness: the amended theorem applied to a nonempty lobby that does
not contain client 42. -/
theorem C5_witness :
    (handleDisconnect [entryA] 42).lobby = [entryA] ∧
    (handleDisconnect [entryA] 42).despawned = [] ∧
    (handleDisconnect [entryA] 42).msgs = [ServerMsg.PlayerRemove 42] :=
  C5_absent_disconnect [entryA] 42 (by
    intro e he
    simp only [List.mem_singleton] at he
    subst he
    norm_num [entryA])

theorem applyMoveScan_spec (px py : Vec3) (mc : Collider) (me : ℕ) :
    ∀ (cs : List MoveEnt) (mask : Vec3), mask.z = 1 →
      applyMoveScan px py mc me cs mask =
        ⟨⟨(if blockedAt px mc me cs then (0 : ℚ) else mask.x),
          (if blockedAt py mc me cs then (0 : ℚ) else mask.y), mask.z⟩,
         (cs.filter (coinTouched px py mc me)).map (fun _ => (⟨me, 1⟩ : ScoreEvent)),
         (cs.filter (coinTouched px py mc me)).map (fun c => c.entity),
         false⟩ := by
  intro cs
  induction cs with
  | nil =>
    intro mask hz
    simp [applyMoveScan, blockedAt]
  | cons c rest ih =>
    intro mask hz
    have h0 : ¬ mask = (⟨0, 0, 0⟩ : Vec3) := by
      intro h
      rw [h] at hz
      exact absurd hz (by norm_num)
    rcases Bool.eq_false_or_eq_true c.collider.collides_with_player with hcp | hcp <;>
      rcases Bool.eq_false_or_eq_true (check_collision px mc c.pos c.collider) with hx | hx <;>
        rcases Bool.eq_false_or_eq_true (check_collision py mc c.pos c.collider) with hy | hy <;>
          rcases Bool.eq_false_or_eq_true c.isCoin with hcoin | hcoin <;>
            by_cases hme : c.entity = me <;>
              simp [applyMoveScan, blockedAt, coinTouched, List.any_cons,
                List.filter_cons, hcp, hx, hy, hcoin, hme, hz, h0, ih, Vec3.mk.injEq]

/-- C8: per-tick movement resolution, per mover: a blocked axis contributes
exactly zero displacement; an unblocked axis advances by exactly
`intent-component * max_speed * dt`; coins never block and each touched coin
yields one `+1` score event and a deferred despawn. -/
theorem C8_axis_masked_movement (dt : ℚ) (m : Mover) (cs : List MoveEnt) :
    (resolveMover dt m cs).1 =
      ⟨m.pos.x + (if blockedAt (moverProbeX dt m) m.collider m.entity cs then 0
        else m.intent.x * m.max_speed * dt),
       m.pos.y + (if blockedAt (moverProbeY dt m) m.collider m.entity cs then 0
        else m.intent.y * m.max_speed * dt),
       m.pos.z⟩ ∧
    (resolveMover dt m cs).2.1 =
      (cs.filter (coinTouched (moverProbeX dt m) (moverProbeY dt m) m.collider m.entity)).map
        (fun _ => (⟨m.entity, 1⟩ : ScoreEvent)) ∧
    (resolveMover dt m cs).2.2 =
      (cs.filter (coinTouched (moverProbeX dt m) (moverProbeY dt m) m.collider m.entity)).map
        (fun c => c.entity) := by
  unfold resolveMover
  rw [applyMoveScan_spec (moverProbeX dt m) (moverProbeY dt m) m.collider m.entity cs ⟨1, 1, 1⟩ rfl]
  simp only [if_neg Bool.false_ne_true]
  refine ⟨?_, ?_, ?_⟩
  case refine_2 => trivial
  case refine_3 => trivial
  by_cases hbx : blockedAt (moverProbeX dt m) m.collider m.entity cs = true <;>
    by_cases hby : blockedAt (moverProbeY dt m) m.collider m.entity cs = true <;>
      · simp [hbx, hby, Vec3.hmul, Vec3.add, mover_movement, Vec2.smul, Vec2.extend,
          Vec3.mk.injEq]
        try ring_nf
        try exact ⟨trivial, trivial⟩

/-- C9: a snapshot entry whose server entity id has no entry in the
network-id mapping is silently skipped — the local state is returned
unchanged (no position, facing, or score of any local entity is touched) —
while an entry with a known mapping updates exactly the mapped local
entity via `updateLocal`. -/
theorem C9_snapshot_skip_unmapped (mapping : List (ℕ × ℕ))
    (locals : List (ℕ × LocalEnt)) (e : SnapEntry) :
    ((∀ kv ∈ mapping, kv.1 ≠ e.entity) → applySnapEntry mapping locals e = locals) ∧
    (∀ sv cv, mapping.find? (fun kv => decide (kv.1 = e.entity)) = some (sv, cv) →
      applySnapEntry mapping locals e =
        locals.map (fun l => if l.1 = cv then (l.1, updateLocal l.2 e) else l)) := by
  constructor
  · intro h
    have hfind : mapping.find? (fun kv => decide (kv.1 = e.entity)) = none := by
      rw [List.find?_eq_none]
      intro kv hkv
      simpa using h kv hkv
    unfold applySnapEntry
    rw [hfind]
  · intro sv cv hfind
    unfold applySnapEntry
    rw [hfind]

/-- C9 witness: with mapping `[(1, 101)]`, an entry for unknown server id 2
leaves the local table unchanged, and an entry for the mapped id 1 rebuilds
the mapped entity's transform from the snapshot. -/
theorem C9_witness :
    applySnapEntry [(1, 101)] [(101, localDuck)] ⟨2, ⟨5, 5, 0⟩, none, some 4⟩ =
      [(101, localDuck)] ∧
    applySnapEntry [(1, 101)] [(101, localDuck)] ⟨1, ⟨5, 5, 0⟩, some ⟨0, 1⟩, some 4⟩ =
      [(101, updateLocal localDuck ⟨1, ⟨5, 5, 0⟩, some ⟨0, 1⟩, some 4⟩)] := by
  constructor
  · exact (C9_snapshot_skip_unmapped [(1, 101)] [(101, localDuck)]
      ⟨2, ⟨5, 5, 0⟩, none, some 4⟩).1 (by
        intro kv hkv
        rw [List.mem_singleton] at hkv
        subst hkv
        norm_num)
  · rw [(C9_snapshot_skip_unmapped [(1, 101)] [(101, localDuck)]
      ⟨1, ⟨5, 5, 0⟩, some ⟨0, 1⟩, some 4⟩).2 1 101 rfl]
    rfl

theorem normalize_or_zero_unit (x y : ℝ) :
    normalize_or_zero x y = (0, 0) ∨
      (normalize_or_zero x y).1 ^ 2 + (normalize_or_zero x y).2 ^ 2 = 1 := by
  unfold normalize_or_zero
  by_cases h : x ^ 2 + y ^ 2 = 0
  · left
    rw [if_pos h]
  · right
    rw [if_neg h]
    have hpos : 0 < x ^ 2 + y ^ 2 := lt_of_le_of_ne (by positivity) (Ne.symm h)
    have hsq : Real.sqrt (x ^ 2 + y ^ 2) ^ 2 = x ^ 2 + y ^ 2 :=
      Real.sq_sqrt (le_of_lt hpos)
    have hsne : Real.sqrt (x ^ 2 + y ^ 2) ≠ 0 :=
      ne_of_gt (Real.sqrt_pos.mpr hpos)
    field_simp

/-- C10: for every combination of the four boolean input flags (indeed for
every raw axis pair), the converted movement intent is the zero vector or a
vector of squared length exactly 1; consequently the squared magnitude of
the per-tick displacement `intent * max_speed * dt` never exceeds
`(max_speed * dt)^2`. -/
theorem C10_intent_unit_or_zero (i : PlayerInput) :
    (move_players_intent i = (0, 0) ∨
      (move_players_intent i).1 ^ 2 + (move_players_intent i).2 ^ 2 = 1) ∧
    (∀ ms dt : ℝ,
      ((move_players_intent i).1 * ms * dt) ^ 2 +
        ((move_players_intent i).2 * ms * dt) ^ 2 ≤ (ms * dt) ^ 2) := by
  have huz := normalize_or_zero_unit (boolAxis i.right - boolAxis i.left)
    (boolAxis i.up - boolAxis i.down)
  constructor
  · exact huz
  · intro ms dt
    have hle : (move_players_intent i).1 ^ 2 + (move_players_intent i).2 ^ 2 ≤ 1 := by
      rcases huz with h | h
      · unfold move_players_intent
        rw [h]
        norm_num
      · unfold move_players_intent
        rw [h]
    calc ((move_players_intent i).1 * ms * dt) ^ 2 +
          ((move_players_intent i).2 * ms * dt) ^ 2
        = ((move_players_intent i).1 ^ 2 + (move_players_intent i).2 ^ 2) *
            (ms * dt) ^ 2 := by ring
      _ ≤ 1 * (ms * dt) ^ 2 :=
          mul_le_mul_of_nonneg_right hle (by positivity)
      _ = (ms * dt) ^ 2 := one_mul _

end Game
